import Mathlib

/-!
Verification development for a single-file healthcare chatbot (src/app.py).

The core logic consists of:
  * `HEALTHCARE_RESPONSES` — a module-level ordered dict from topic keyword to
    canned response (Python dicts preserve insertion order);
  * `get_contextual_response` — a wrapper around an external tokenizer/model
    pair (BlenderBot) that normalizes initialization failure and per-call
    failure into fixed apology strings;
  * `healthcare_chatbot` — the router: an emergency-keyword check with
    priority, then a first-match scan of the response dict, then the
    generative fallback with a fixed disclaimer suffix appended.

Embedding choices:
  * Python strings are Lean `String` (a list of characters); `needle in hay`
    (substring containment) is embedded as the executable `strIn`, and
    `str.lower()` as `pyLower` (`Char.toLower` on every character; ASCII
    case-mapping, which covers all keywords of this program).
  * The external tokenizer/model state is a `GenService`: two `Option Unit`
    fields embed the `tokenizer is None or model is None` check of the source
    and a `call` field embeds the composite tokenize/generate/decode call,
    returning `Except Unit String` (the `Except.error` case embeds the call
    raising, which the source catches in its `try`/`except`).
-/

/-- Embeds Python `hay.startswith(needle)` on explicit character lists:
true iff `needle` is a prefix of `hay`. -/
def startsWithB : List Char → List Char → Bool
  | _, [] => true
  | [], _ :: _ => false
  | c :: hay, c2 :: needle => c == c2 && startsWithB hay needle

/-- Embeds Python `needle in hay` (substring containment) on character lists:
true iff `needle` occurs contiguously inside `hay`. The empty needle is
contained in everything, as in Python. -/
def containsB : List Char → List Char → Bool
  | [], needle => needle.isEmpty
  | c :: hay, needle => startsWithB (c :: hay) needle || containsB hay needle

/-- Embeds the Python expression `needle in hay` for strings. -/
def strIn (needle hay : String) : Bool :=
  containsB hay.data needle.data

/-- Embeds Python `s.lower()`: lowercase every character (ASCII mapping via
`Char.toLower`, which covers every keyword in this program). -/
def pyLower (s : String) : String :=
  ⟨s.data.map Char.toLower⟩

/-- Embeds the module-level `HEALTHCARE_RESPONSES` dict of src/app.py as an
ordered association list, in the dict's insertion (= iteration) order. -/
def HEALTHCARE_RESPONSES : List (String × String) :=
  [ ("symptom", "I understand you're experiencing symptoms. Could you please describe them in more detail? This will help me provide better guidance. Remember, for accurate diagnosis, consulting a healthcare professional is essential."),
    ("appointment", "I can help you with scheduling an appointment. What type of specialist would you like to see, and what's your preferred time? I'll guide you through the booking process."),
    ("medication", "Medication adherence is crucial for effective treatment. Are you having any specific concerns about your medication? Remember to always consult your doctor before making any changes to your prescription."),
    ("pain", "I'm sorry to hear you're in pain. Could you tell me more about where it hurts and how long you've been experiencing this? This information is important for proper medical guidance."),
    ("fever", "I understand you have a fever. Is it accompanied by any other symptoms? Make sure to rest, stay hydrated, and monitor your temperature. If it's high or persistent, please seek medical attention."),
    ("emergency", "This sounds like a medical emergency. Please call emergency services (911) immediately. While waiting for help, try to stay calm and follow any first aid procedures you're aware of.") ]

/-- Embeds Python dict subscription `d[k]` on the association list. The
`none` branch is unreachable for keys present in the dict (Python would
raise `KeyError` there); the source only subscripts with the present key
"emergency". -/
def dict_get (d : List (String × String)) (k : String) : String :=
  match d.find? (fun kv => kv.1 == k) with
  | some kv => kv.2
  | none => ""

/-- The `emergency_keywords` local list of `healthcare_chatbot`
(src/app.py line 67). -/
def emergency_keywords : List String :=
  ["heart attack", "stroke", "severe bleeding", "unconscious", "suicide", "overdose"]

/-- State of the external generation service as observed by
`get_contextual_response`: `tokenizer`/`model` embed the module-level
globals (`none` = failed to load), and `call` embeds the composite
tokenize/generate/decode call on a given input, with `Except.error`
embedding that call raising. -/
structure GenService where
  tokenizer : Option Unit
  model : Option Unit
  call : String → Except Unit String

/-- Embeds `get_contextual_response` of src/app.py (lines 49-60): if the
model or tokenizer failed to initialize, return the fixed "try again later"
apology without attempting the call; otherwise attempt the call and convert
a raised exception into the fixed "rephrase your question" apology. -/
def get_contextual_response (svc : GenService) (user_input : String) : String :=
  if svc.tokenizer.isNone || svc.model.isNone then
    "I apologize, but I'm having trouble. Please try again later."
  else
    match svc.call user_input with
    | Except.ok response => response
    | Except.error _ => "I apologize, but I'm having trouble understanding. Could you please rephrase your question?"

/-- The fixed disclaimer suffix (`healthcare_context` local of
`healthcare_chatbot`, src/app.py lines 78-79): Python concatenates the two
adjacent string literals into one. -/
def healthcare_context : String :=
  "\n\nPlease note that I'm a healthcare assistant. For specific medical advice, always consult a healthcare professional."

/-- Embeds `healthcare_chatbot` of src/app.py (lines 62-80): lowercase the
input, check emergency keywords first, then scan `HEALTHCARE_RESPONSES` in
order returning the first matching keyword's response, else call the
generative fallback on the original input and append the disclaimer. -/
def healthcare_chatbot (svc : GenService) (user_input : String) : String :=
  let user_input_lower := pyLower user_input
  if emergency_keywords.any (fun keyword => strIn keyword user_input_lower) then
    dict_get HEALTHCARE_RESPONSES "emergency"
  else
    match HEALTHCARE_RESPONSES.find? (fun kv => strIn kv.1 user_input_lower) with
    | some kv => kv.2
    | none =>
      get_contextual_response svc user_input ++ healthcare_context

/-- A concrete healthy service (model and tokenizer loaded, calls succeed
with a fixed reply), used to instantiate universally quantified theorems. -/
def svcOk : GenService :=
  ⟨some (), some (), fun _ => Except.ok "Generated reply."⟩

/-- A concrete service whose generation call echoes its input, used to
observe which string the router hands to the fallback adapter. -/
def svcEcho : GenService :=
  ⟨some (), some (), fun s => Except.ok s⟩

/-- A concrete service whose model failed to load. -/
def svcDown : GenService :=
  ⟨none, some (), fun _ => Except.ok "Generated reply."⟩

/-- A concrete service whose generation call raises on every input. -/
def svcRaise : GenService :=
  ⟨some (), some (), fun _ => Except.error ()⟩

/-- `startsWithB` holds whenever the needle is literally an initial segment. -/
theorem startsWithB_append (x y : List Char) : startsWithB (x ++ y) x = true := by
  induction x with
  | nil => cases y <;> rfl
  | cons c t ih => simp [startsWithB, ih]

/-- Ends-with on character lists, via reversal. -/
def listEndsWith (hay pat : List Char) : Bool :=
  startsWithB hay.reverse pat.reverse

/-- Appending `pat` always produces a list that ends with `pat`. -/
theorem listEndsWith_append (x pat : List Char) : listEndsWith (x ++ pat) pat = true := by
  unfold listEndsWith
  rw [List.reverse_append]
  exact startsWithB_append pat.reverse x.reverse

/-- Every character of a matched prefix occurs in the haystack. -/
theorem startsWithB_mem {needle : List Char} :
    ∀ {hay : List Char}, startsWithB hay needle = true → ∀ c ∈ needle, c ∈ hay := by
  induction needle with
  | nil => intro hay _ c hc; cases hc
  | cons c0 t ih =>
    intro hay h c hc
    cases hay with
    | nil => cases h
    | cons h0 ht =>
      rw [startsWithB, Bool.and_eq_true, beq_iff_eq] at h
      rcases List.mem_cons.mp hc with hce | hct
      · exact List.mem_cons.mpr (Or.inl (hce ▸ h.1.symm ▸ rfl))
      · exact List.mem_cons.mpr (Or.inr (ih h.2 c hct))

/-- Every character of a contained substring occurs in the haystack. -/
theorem containsB_mem {needle : List Char} :
    ∀ {hay : List Char}, containsB hay needle = true → ∀ c ∈ needle, c ∈ hay := by
  intro hay
  induction hay with
  | nil =>
    intro h c hc
    rw [containsB, List.isEmpty_iff] at h
    subst h; cases hc
  | cons h0 ht ih =>
    intro h c hc
    rw [containsB, Bool.or_eq_true] at h
    rcases h with h | h
    · exact startsWithB_mem h c hc
    · exact List.mem_cons.mpr (Or.inr (ih h c hc))

/-- Lowercasing fixes whitespace characters. -/
theorem toLower_of_whitespace {c : Char} (h : c.isWhitespace = true) : c.toLower = c := by
  rw [Char.isWhitespace] at h
  simp only [Bool.or_eq_true, decide_eq_true_eq] at h
  rcases h with ((rfl | rfl) | rfl) | rfl <;> decide

/-- If the haystack is all whitespace and the needle has a non-whitespace
character, the needle is not a substring of the lowercased haystack. -/
theorem strIn_eq_false_of_whitespace {input needle : String}
    (hws : input.data.all Char.isWhitespace = true)
    (hne : needle.data.any (fun c => ! c.isWhitespace) = true) :
    strIn needle (pyLower input) = false := by
  rcases List.any_eq_true.mp hne with ⟨c, hc, hcws⟩
  rw [Bool.not_eq_eq_eq_not, Bool.not_true] at hcws
  cases hb : strIn needle (pyLower input) with
  | false => rfl
  | true =>
    exfalso
    have hmem : c ∈ (pyLower input).data := containsB_mem hb c hc
    rcases List.mem_map.mp hmem with ⟨c0, hc0, hmap⟩
    have hc0ws : c0.isWhitespace = true := List.all_eq_true.mp hws c0 hc0
    rw [toLower_of_whitespace hc0ws] at hmap
    rw [hmap] at hc0ws
    rw [hc0ws] at hcws
    cases hcws

/-- `find?` returns the entry at index `i` when it matches and all earlier
entries fail the predicate. -/
theorem find?_first {α : Type} (p : α → Bool) :
    ∀ (l : List α) (i : Nat) (hi : i < l.length),
      p (l.get ⟨i, hi⟩) = true →
      (l.take i).all (fun a => ! p a) = true →
      l.find? p = some (l.get ⟨i, hi⟩) := by
  intro l
  induction l with
  | nil => intro i hi; cases hi
  | cons a t ih =>
    intro i hi hp htake
    cases i with
    | zero =>
      simp only [List.get] at hp
      simp [List.find?, hp]
    | succ j =>
      rw [List.take_succ_cons, List.all_cons, Bool.and_eq_true] at htake
      have hpa : p a = false := by
        rcases htake with ⟨hna, _⟩
        rw [Bool.not_eq_eq_eq_not, Bool.not_true] at hna
        exact hna
      simp only [List.find?, hpa]
      exact ih j (Nat.lt_of_succ_lt_succ hi) hp htake.2

/-- C1: any input whose lowercased form contains an emergency keyword is
routed to the fixed emergency response, regardless of whatever topic
keywords are also present and of the state of the generation service. -/
theorem C1_emergency_priority (svc : GenService) (input : String)
    (h : ∃ k ∈ emergency_keywords, strIn k (pyLower input) = true) :
    healthcare_chatbot svc input =
      "This sounds like a medical emergency. Please call emergency services (911) immediately. While waiting for help, try to stay calm and follow any first aid procedures you're aware of." := by
  have hany : emergency_keywords.any (fun keyword => strIn keyword (pyLower input)) = true :=
    List.any_eq_true.mpr h
  simp [healthcare_chatbot, hany]
  rfl

/-- Witness for C1: "heart attack" is present together with the topic
keyword "pain", and the emergency response still wins. -/
theorem C1_emergency_priority_witness :
    healthcare_chatbot svcOk "I am in pain and I think I am having a heart attack" =
      "This sounds like a medical emergency. Please call emergency services (911) immediately. While waiting for help, try to stay calm and follow any first aid procedures you're aware of." :=
  C1_emergency_priority svcOk "I am in pain and I think I am having a heart attack"
    ⟨"heart attack", by decide, by decide⟩

/-- C5: with an uninitialized model or tokenizer, `get_contextual_response`
returns the fixed "try again later" apology on every input, and that string
differs from the per-call "rephrase your question" apology. -/
theorem C5_unavailable_apology (svc : GenService) (input : String)
    (h : svc.tokenizer = none ∨ svc.model = none) :
    get_contextual_response svc input =
      "I apologize, but I'm having trouble. Please try again later."
    ∧ ("I apologize, but I'm having trouble. Please try again later." : String) ≠
        "I apologize, but I'm having trouble understanding. Could you please rephrase your question?" := by
  constructor
  · have hcond : (svc.tokenizer.isNone || svc.model.isNone) = true := by
      rcases h with h | h <;> simp [h]
    simp [get_contextual_response, hcond]
  · decide

/-- Witness for C5 at a service whose tokenizer failed to load. -/
theorem C5_unavailable_apology_witness :
    get_contextual_response svcDown "hello" =
      "I apologize, but I'm having trouble. Please try again later."
    ∧ ("I apologize, but I'm having trouble. Please try again later." : String) ≠
        "I apologize, but I'm having trouble understanding. Could you please rephrase your question?" :=
  C5_unavailable_apology svcDown "hello" (Or.inl rfl)

/-- C6: with model and tokenizer initialized, a raising generation call is
caught and mapped to the fixed "rephrase your question" apology; the
embedding returns a plain `String` on every input, so no error value
escapes `get_contextual_response`. -/
theorem C6_percall_failure (svc : GenService) (input : String)
    (h1 : svc.tokenizer.isSome = true) (h2 : svc.model.isSome = true)
    (h3 : svc.call input = Except.error ()) :
    get_contextual_response svc input =
      "I apologize, but I'm having trouble understanding. Could you please rephrase your question?" := by
  obtain ⟨t, m, call⟩ := svc
  cases t with
  | none => cases h1
  | some u =>
    cases m with
    | none => cases h2
    | some v =>
      have h4 : call input = Except.error () := h3
      simp [get_contextual_response, h4]

/-- Witness for C6 at a service whose calls always raise. -/
theorem C6_percall_failure_witness :
    get_contextual_response svcRaise "hello" =
      "I apologize, but I'm having trouble understanding. Could you please rephrase your question?" :=
  C6_percall_failure svcRaise "hello" rfl rfl rfl

/-- C9: the router is deterministic given the observable behavior of the
external service — two services with the same availability and the same
generation results produce the same response on the same input. -/
theorem C9_deterministic (svc1 svc2 : GenService) (input : String)
    (ht : svc1.tokenizer.isNone = svc2.tokenizer.isNone)
    (hm : svc1.model.isNone = svc2.model.isNone)
    (hc : svc1.call = svc2.call) :
    healthcare_chatbot svc1 input = healthcare_chatbot svc2 input := by
  have hg : get_contextual_response svc1 input = get_contextual_response svc2 input := by
    simp only [get_contextual_response, ht, hm, hc]
  simp only [healthcare_chatbot, hg]

/-- Witness for C9: two invocations with the same service and input. -/
theorem C9_deterministic_witness :
    healthcare_chatbot svcOk "hello" = healthcare_chatbot svcOk "hello" :=
  C9_deterministic svcOk svcOk "hello" rfl rfl rfl

/-- C10: every branch of the router produces a non-empty string — a canned
response or the fallback output with the non-empty disclaimer appended —
for every input and every service behavior. -/
theorem C10_nonempty (svc : GenService) (input : String) :
    healthcare_chatbot svc input ≠ "" := by
  cases hany : emergency_keywords.any (fun keyword => strIn keyword (pyLower input)) with
  | true =>
    have heq : healthcare_chatbot svc input = dict_get HEALTHCARE_RESPONSES "emergency" := by
      simp [healthcare_chatbot, hany]
    rw [heq]; decide
  | false =>
    cases hfind : HEALTHCARE_RESPONSES.find? (fun kv => strIn kv.1 (pyLower input)) with
    | some kv =>
      have heq : healthcare_chatbot svc input = kv.2 := by
        simp [healthcare_chatbot, hany, hfind]
      rw [heq]
      have hmem := List.mem_of_find?_eq_some hfind
      have hall : HEALTHCARE_RESPONSES.all (fun kv2 => ! (kv2.2 == "")) = true := by decide
      have hne := List.all_eq_true.mp hall kv hmem
      simp only [Bool.not_eq_eq_eq_not, Bool.not_true, beq_eq_false_iff_ne, ne_eq] at hne
      exact hne
    | none =>
      have heq : healthcare_chatbot svc input =
          get_contextual_response svc input ++ healthcare_context := by
        simp [healthcare_chatbot, hany, hfind]
      rw [heq]
      intro hcontra
      have hd : (get_contextual_response svc input).data ++ healthcare_context.data = [] :=
        congrArg String.data hcontra
      exact absurd (List.append_eq_nil.mp hd).2 (by decide)

/-- C3: when no emergency keyword matches and the entry at index `i` of
`HEALTHCARE_RESPONSES` is the first whose keyword occurs in the lowercased
input, the router returns exactly that entry's canned response — first
keyword in table order wins. -/
theorem C3_first_match_wins (svc : GenService) (input : String) (i : Nat)
    (hi : i < HEALTHCARE_RESPONSES.length)
    (hnoE : ∀ k ∈ emergency_keywords, strIn k (pyLower input) = false)
    (hit : strIn (HEALTHCARE_RESPONSES.get ⟨i, hi⟩).1 (pyLower input) = true)
    (hbefore : (HEALTHCARE_RESPONSES.take i).all
        (fun kv => ! strIn kv.1 (pyLower input)) = true) :
    healthcare_chatbot svc input = (HEALTHCARE_RESPONSES.get ⟨i, hi⟩).2 := by
  have hany : emergency_keywords.any (fun keyword => strIn keyword (pyLower input)) = false :=
    List.any_eq_false.mpr (fun k hk h => by rw [hnoE k hk] at h; cases h)
  have hfind := find?_first (fun kv => strIn kv.1 (pyLower input))
    HEALTHCARE_RESPONSES i hi hit hbefore
  simp [healthcare_chatbot, hany, hfind]

/-- Witness for C3: "I have a severe headache and fever" matches "fever"
(index 4) and none of the earlier keywords, and gets the fever response. -/
theorem C3_first_match_wins_witness :
    healthcare_chatbot svcOk "I have a severe headache and fever" =
      (HEALTHCARE_RESPONSES.get ⟨4, by decide⟩).2 :=
  C3_first_match_wins svcOk "I have a severe headache and fever" 4 (by decide)
    (by decide) (by decide) (by decide)

/-- C4: when neither an emergency keyword nor a table keyword occurs in the
lowercased input, the router returns the adapter's output on the original
input with the fixed disclaimer appended; and whenever a keyword does
match, the returned canned response does not end with the disclaimer. -/
theorem C4_fallback_disclaimer :
    (∀ (svc : GenService) (input : String),
        (∀ k ∈ emergency_keywords, strIn k (pyLower input) = false) →
        (∀ kv ∈ HEALTHCARE_RESPONSES, strIn kv.1 (pyLower input) = false) →
        healthcare_chatbot svc input = get_contextual_response svc input ++ healthcare_context)
    ∧ (∀ (svc : GenService) (input : String),
        ((∃ k ∈ emergency_keywords, strIn k (pyLower input) = true) ∨
          (∃ kv ∈ HEALTHCARE_RESPONSES, strIn kv.1 (pyLower input) = true)) →
        listEndsWith (healthcare_chatbot svc input).data healthcare_context.data = false) := by
  constructor
  · intro svc input hE hT
    have hany : emergency_keywords.any (fun keyword => strIn keyword (pyLower input)) = false :=
      List.any_eq_false.mpr (fun k hk h => by rw [hE k hk] at h; cases h)
    have hfind : HEALTHCARE_RESPONSES.find? (fun kv => strIn kv.1 (pyLower input)) = none :=
      List.find?_eq_none.mpr (fun kv hkv h => by rw [hT kv hkv] at h; cases h)
    simp [healthcare_chatbot, hany, hfind]
  · intro svc input h
    cases hany : emergency_keywords.any (fun keyword => strIn keyword (pyLower input)) with
    | true =>
      have heq : healthcare_chatbot svc input = dict_get HEALTHCARE_RESPONSES "emergency" := by
        simp [healthcare_chatbot, hany]
      rw [heq]; decide
    | false =>
      have hT : ∃ kv ∈ HEALTHCARE_RESPONSES, strIn kv.1 (pyLower input) = true := by
        rcases h with hE | hT
        · rcases hE with ⟨k, hk, hkt⟩
          exact absurd hkt (List.any_eq_false.mp hany k hk)
        · exact hT
      cases hfind : HEALTHCARE_RESPONSES.find? (fun kv => strIn kv.1 (pyLower input)) with
      | none =>
        rcases hT with ⟨kv, hkv, hkvt⟩
        exact absurd hkvt (List.find?_eq_none.mp hfind kv hkv)
      | some kv =>
        have heq : healthcare_chatbot svc input = kv.2 := by
          simp [healthcare_chatbot, hany, hfind]
        rw [heq]
        have hmem := List.mem_of_find?_eq_some hfind
        have hall : HEALTHCARE_RESPONSES.all
            (fun kv2 => ! listEndsWith kv2.2.data healthcare_context.data) = true := by decide
        have hkv2 := List.all_eq_true.mp hall kv hmem
        simp only [Bool.not_eq_eq_eq_not, Bool.not_true] at hkv2
        exact hkv2

/-- Witness for C4: a keyword-free question takes the fallback path with
the disclaimer, while a fever question yields a canned response that does
not end with the disclaimer. -/
theorem C4_fallback_disclaimer_witness :
    (healthcare_chatbot svcOk "What is the weather like" =
      get_contextual_response svcOk "What is the weather like" ++ healthcare_context)
    ∧ listEndsWith (healthcare_chatbot svcOk "I have a fever").data
        healthcare_context.data = false :=
  ⟨C4_fallback_disclaimer.1 svcOk "What is the weather like" (by decide) (by decide),
   C4_fallback_disclaimer.2 svcOk "I have a fever" (Or.inr (by decide))⟩

/-- C7: an empty or whitespace-only input matches no emergency keyword and
no table keyword, so the router takes the generative fallback path and
appends the disclaimer. -/
theorem C7_whitespace_fallback (svc : GenService) (input : String)
    (hws : input.data.all Char.isWhitespace = true) :
    emergency_keywords.any (fun keyword => strIn keyword (pyLower input)) = false
    ∧ HEALTHCARE_RESPONSES.find? (fun kv => strIn kv.1 (pyLower input)) = none
    ∧ healthcare_chatbot svc input = get_contextual_response svc input ++ healthcare_context := by
  have hE : ∀ k ∈ emergency_keywords, strIn k (pyLower input) = false := by
    intro k hk
    apply strIn_eq_false_of_whitespace hws
    have hall : emergency_keywords.all
        (fun k2 => k2.data.any (fun c => ! c.isWhitespace)) = true := by decide
    exact List.all_eq_true.mp hall k hk
  have hT : ∀ kv ∈ HEALTHCARE_RESPONSES, strIn kv.1 (pyLower input) = false := by
    intro kv hkv
    apply strIn_eq_false_of_whitespace hws
    have hall : HEALTHCARE_RESPONSES.all
        (fun kv2 => kv2.1.data.any (fun c => ! c.isWhitespace)) = true := by decide
    exact List.all_eq_true.mp hall kv hkv
  have hany : emergency_keywords.any (fun keyword => strIn keyword (pyLower input)) = false :=
    List.any_eq_false.mpr (fun k hk h => by rw [hE k hk] at h; cases h)
  have hfind : HEALTHCARE_RESPONSES.find? (fun kv => strIn kv.1 (pyLower input)) = none :=
    List.find?_eq_none.mpr (fun kv hkv h => by rw [hT kv hkv] at h; cases h)
  refine ⟨hany, hfind, ?_⟩
  simp [healthcare_chatbot, hany, hfind]

/-- Witness for C7 at the empty string. -/
theorem C7_whitespace_fallback_witness :
    emergency_keywords.any (fun keyword => strIn keyword (pyLower "")) = false
    ∧ HEALTHCARE_RESPONSES.find? (fun kv => strIn kv.1 (pyLower "")) = none
    ∧ healthcare_chatbot svcOk "" = get_contextual_response svcOk "" ++ healthcare_context :=
  C7_whitespace_fallback svcOk "" (by decide)

/-- C8: matching is case-insensitive — "I have a FEVER" gets the fever
response for every service state — while the fallback adapter receives the
original, non-lowercased input: on a keyword-free input the result is the
adapter output on the input as given, and for an echoing service it
differs from what the lowercased copy would have produced. -/
theorem C8_lowercase_matching_only :
    (∀ svc : GenService, healthcare_chatbot svc "I have a FEVER" =
      "I understand you have a fever. Is it accompanied by any other symptoms? Make sure to rest, stay hydrated, and monitor your temperature. If it's high or persistent, please seek medical attention.")
    ∧ (∀ (svc : GenService) (input : String),
        (∀ k ∈ emergency_keywords, strIn k (pyLower input) = false) →
        (∀ kv ∈ HEALTHCARE_RESPONSES, strIn kv.1 (pyLower input) = false) →
        healthcare_chatbot svc input = get_contextual_response svc input ++ healthcare_context)
    ∧ healthcare_chatbot svcEcho "Please HELP me now" ≠
        get_contextual_response svcEcho (pyLower "Please HELP me now") ++ healthcare_context := by
  refine ⟨fun svc => rfl, ?_, by decide⟩
  intro svc input hE hT
  have hany : emergency_keywords.any (fun keyword => strIn keyword (pyLower input)) = false :=
    List.any_eq_false.mpr (fun k hk h => by rw [hE k hk] at h; cases h)
  have hfind : HEALTHCARE_RESPONSES.find? (fun kv => strIn kv.1 (pyLower input)) = none :=
    List.find?_eq_none.mpr (fun kv hkv h => by rw [hT kv hkv] at h; cases h)
  simp [healthcare_chatbot, hany, hfind]

/-- Witness for C8 on a keyword-free input: the fallback is invoked with
the input exactly as given. -/
theorem C8_lowercase_matching_only_witness :
    healthcare_chatbot svcEcho "Good morning to you" =
      get_contextual_response svcEcho "Good morning to you" ++ healthcare_context :=
  C8_lowercase_matching_only.2.1 svcEcho "Good morning to you" (by decide) (by decide)

/-- C2 counterexample: the input "emergency" contains no phrase of the
emergency keyword set, yet the router returns the emergency response — it
is reached through the "emergency" key of the response table itself, so
the table scan does reach the emergency entry. -/
theorem C2_counterexample :
    healthcare_chatbot svcOk "emergency" =
      "This sounds like a medical emergency. Please call emergency services (911) immediately. While waiting for help, try to stay calm and follow any first aid procedures you're aware of."
    ∧ emergency_keywords.any (fun keyword => strIn keyword (pyLower "emergency")) = false :=
  ⟨rfl, by decide⟩

/-- C2 (amended): whenever the router returns the emergency response, the
lowercased input contains an emergency keyword or it contains "emergency"
itself, which is a key of the response table — so the emergency entry IS
reachable through the table scan, via its own key, and only via it. -/
theorem C2_emergency_reachability (svc : GenService) (input : String)
    (h : healthcare_chatbot svc input =
      "This sounds like a medical emergency. Please call emergency services (911) immediately. While waiting for help, try to stay calm and follow any first aid procedures you're aware of.") :
    emergency_keywords.any (fun keyword => strIn keyword (pyLower input)) = true
    ∨ strIn "emergency" (pyLower input) = true := by
  cases hany : emergency_keywords.any (fun keyword => strIn keyword (pyLower input)) with
  | true => exact Or.inl rfl
  | false =>
    right
    cases hfind : HEALTHCARE_RESPONSES.find? (fun kv => strIn kv.1 (pyLower input)) with
    | some kv =>
      have heq : healthcare_chatbot svc input = kv.2 := by
        simp [healthcare_chatbot, hany, hfind]
      rw [heq] at h
      have hmem := List.mem_of_find?_eq_some hfind
      have hpred := List.find?_some hfind
      simp only [HEALTHCARE_RESPONSES, List.mem_cons, List.not_mem_nil, or_false] at hmem
      rcases hmem with rfl | rfl | rfl | rfl | rfl | rfl
      · exact absurd h (by decide)
      · exact absurd h (by decide)
      · exact absurd h (by decide)
      · exact absurd h (by decide)
      · exact absurd h (by decide)
      · exact hpred
    | none =>
      exfalso
      have heq : healthcare_chatbot svc input =
          get_contextual_response svc input ++ healthcare_context := by
        simp [healthcare_chatbot, hany, hfind]
      rw [heq] at h
      have hends : listEndsWith
          ("This sounds like a medical emergency. Please call emergency services (911) immediately. While waiting for help, try to stay calm and follow any first aid procedures you're aware of." : String).data
          healthcare_context.data = true := by
        rw [← h]
        exact listEndsWith_append (get_contextual_response svc input).data healthcare_context.data
      exact absurd hends (by decide)

/-- Witness for the amended C2 at the input "emergency". -/
theorem C2_emergency_reachability_witness :
    emergency_keywords.any (fun keyword => strIn keyword (pyLower "emergency")) = true
    ∨ strIn "emergency" (pyLower "emergency") = true :=
  C2_emergency_reachability svcOk "emergency" rfl
